import Mathlib

/-!
Shallow embedding of the Discord client library (src/Discord/Bot.ts, first
`Client` class, and src/Discord/Webhooks.ts, `WebhookUtils` class).

HTTP I/O is modelled by an explicit transport function from requests to
results, and each operation returns the list of HTTP requests it issues
together with its result.  JavaScript exceptions are modelled with `Except`;
`console` output is treated as an unobservable side effect and is recorded in
comments where the source logs.
-/

/-- JSON values, as produced by `JSON` bodies and axios response data. -/
inductive Json where
  | null
  | bool (b : Bool)
  | num (n : Int)
  | str (s : String)
  | arr (xs : List Json)
  | obj (fields : List (String × Json))

/-- HTTP verbs used by the clients (axios `method`). -/
inductive Method where
  | get
  | post
  | put
  | delete
  | patch
deriving DecidableEq

/-- Request bodies: either a JSON body or the multipart form built by
`sendFile` (file part with its file name and data, plus a `content` part). -/
inductive ReqBody where
  | json (j : Json)
  | multipart (fileName : String) (fileData : String) (content : String)

/-- An HTTP request as handed to axios: verb, URL, optional body, and the
explicitly set headers. -/
structure HttpRequest where
  method : Method
  url : String
  body : Option ReqBody
  headers : List (String × String)

/-- An axios error: the server's structured error payload when a response
exists (`error.response.data`), and the transport-level message
(`error.message`). -/
structure ApiError where
  response : Option Json
  message : String

/-- Errors observable from the bot client's DM/webhook helpers: a rethrown
axios error, or a JavaScript `TypeError` (e.g. reading `.id` of
`recipients[0]` on an empty array, or `.data` of an absent `error.response`). -/
inductive JsError where
  | api (e : ApiError)
  | typeError

/-- Errors observable from webhook-client operations: a propagated axios
error or a file-system error (message of the `fs` exception). -/
inductive WebhookErr where
  | http (e : ApiError)
  | fs (msg : String)

/-- The HTTP transport: what the external API answers to each request. -/
def Transport : Type := HttpRequest → Except ApiError Json

/-- Result of `fs.readFileSync` plus `fs.statSync`: file bytes and size. -/
structure FileStat where
  data : String
  size : Nat

/-- The local file system: file contents by path, or a file-system error. -/
def FileSystem : Type := String → Except String FileStat

/-- UTF-8 encoding of one character (byte values as naturals). -/
def utf8Bytes (c : Char) : List Nat :=
  let n := c.toNat
  if n < 128 then [n]
  else if n < 2048 then [192 + n / 64, 128 + n % 64]
  else if n < 65536 then [224 + n / 4096, 128 + (n / 64) % 64, 128 + n % 64]
  else [240 + n / 262144, 128 + (n / 4096) % 64, 128 + (n / 64) % 64, 128 + n % 64]

/-- Uppercase hexadecimal digit for a nibble. -/
def hexDigit (n : Nat) : Char :=
  if n < 10 then Char.ofNat (48 + n) else Char.ofNat (55 + n)

/-- Bytes left unescaped by JavaScript `encodeURIComponent`:
`A-Z a-z 0-9 - _ . ! ~ * ' ( )`. -/
def isUnreservedByte (n : Nat) : Bool :=
  (65 ≤ n && n ≤ 90) || (97 ≤ n && n ≤ 122) || (48 ≤ n && n ≤ 57) ||
  n == 45 || n == 95 || n == 46 || n == 33 || n == 126 || n == 42 ||
  n == 39 || n == 40 || n == 41

/-- Percent-encoding of a single byte, per `encodeURIComponent`. -/
def encByte (n : Nat) : List Char :=
  if isUnreservedByte n then [Char.ofNat n]
  else [Char.ofNat 37, hexDigit (n / 16), hexDigit (n % 16)]

/-- JavaScript `encodeURIComponent`, used for emoji path segments. -/
def encodeURIComponent (s : String) : String :=
  String.mk ((s.data.flatMap utf8Bytes).flatMap encByte)

/-- Standard base64 alphabet, indexed 0..63. -/
def b64char (n : Nat) : Char :=
  (("ABCDEFGHIJKLMNOPQRSTUVWXYZabcdefghijklmnopqrstuvwxyz0123456789+/").data).getD
    n (Char.ofNat 65)

/-- Base64 encoding of a byte list, with `=` padding. -/
def base64Go : List Nat → List Char
  | [] => []
  | [a] => [b64char (a / 4), b64char ((a % 4) * 16), Char.ofNat 61, Char.ofNat 61]
  | [a, b] => [b64char (a / 4), b64char ((a % 4) * 16 + b / 16),
      b64char ((b % 16) * 4), Char.ofNat 61]
  | a :: b :: c :: rest =>
      b64char (a / 4) :: b64char ((a % 4) * 16 + b / 16) ::
      b64char ((b % 16) * 4 + c / 64) :: b64char (c % 64) :: base64Go rest

/-- Buffer `toString('base64')` over our string-modelled file bytes. -/
def base64Encode (data : String) : String :=
  String.mk (base64Go (data.data.flatMap utf8Bytes))

/-- Node `path.basename` for forward-slash paths. -/
def basename (p : String) : String :=
  ((p.splitOn "/").getLast?).getD p

/-- The request built by `Client.makeRequest`: v10 base URL, bot auth header
and JSON content type. -/
def mkRequest (tok endpoint : String) (method : Method) (body : Option ReqBody) :
    HttpRequest :=
  { method := method
    url := "https://discord.com/api/v10" ++ endpoint
    body := body
    headers := [("Authorization", "Bot " ++ tok),
                ("Content-Type", "application/json")] }

/-- `Client.makeRequest`: issues one request with auth headers against the
v10 base URL; on success returns `response.data`; on failure logs
`error.response?.data || error.message` and rethrows. -/
def makeRequest (t : Transport) (tok endpoint : String) (method : Method)
    (body : Option ReqBody) : List HttpRequest × Except ApiError Json :=
  match t (mkRequest tok endpoint method body) with
  | .ok data => ([mkRequest tok endpoint method body], .ok data)
  | .error e => ([mkRequest tok endpoint method body], .error e)

/-- The bot-client operations that are thin forwarders to `makeRequest`
(every public method of the class except `isDmOpen`, `openOrGetDm`, `dm`,
`createWebhook` and `deleteWebhook`). -/
inductive BotOp where
  | sendMessage (channelId content : String)
  | getUser (userId : String)
  | getGuild (guildId : String)
  | createChannel (guildId name type : String)
  | kickMember (guildId userId : String)
  | getChannelMessages (channelId : String)
  | addReaction (channelId messageId emoji : String)
  | removeReaction (channelId messageId emoji userId : String)
  | getMemberRoles (guildId userId : String)
  | getGuildChannels (guildId : String)
  | editMessage (channelId messageId content : String)
  | getMembers (guildId : String)
  | createEmoji (guildId name image : String)
  | getEmojis (guildId : String)
  | getRoles (guildId : String)
  | deleteMessage (channelId messageId : String)
  | editRole (guildId roleId : String) (data : Json)
  | getRoleUsers (guildId roleId : String)
  | editUsername (username : String)
  | editAvatar (avatar : String)
  | editStatus (status : String)
  | getBotGateway
  | info
  | getGuilds
  | leaveGuild (guildId : String)
  | getConnections

/-- Endpoint, verb and body passed to `makeRequest` by each forwarder,
transcribed from the corresponding method of `Client`. -/
def botRequestParts : BotOp → String × Method × Option ReqBody
  | .sendMessage channelId content =>
      ("/channels/" ++ channelId ++ "/messages", .post,
        some (.json (.obj [("content", .str content)])))
  | .getUser userId => ("/users/" ++ userId, .get, none)
  | .getGuild guildId => ("/guilds/" ++ guildId, .get, none)
  | .createChannel guildId name type =>
      ("/guilds/" ++ guildId ++ "/channels", .post,
        some (.json (.obj [("name", .str name), ("type", .str type)])))
  | .kickMember guildId userId =>
      ("/guilds/" ++ guildId ++ "/members/" ++ userId, .delete, none)
  | .getChannelMessages channelId =>
      ("/channels/" ++ channelId ++ "/messages", .get, none)
  | .addReaction channelId messageId emoji =>
      ("/channels/" ++ channelId ++ "/messages/" ++ messageId ++
        "/reactions/" ++ encodeURIComponent emoji ++ "/@me", .put, none)
  | .removeReaction channelId messageId emoji userId =>
      ("/channels/" ++ channelId ++ "/messages/" ++ messageId ++
        "/reactions/" ++ encodeURIComponent emoji ++ "/" ++ userId, .delete, none)
  | .getMemberRoles guildId userId =>
      ("/guilds/" ++ guildId ++ "/members/" ++ userId, .get, none)
  | .getGuildChannels guildId => ("/guilds/" ++ guildId ++ "/channels", .get, none)
  | .editMessage channelId messageId content =>
      ("/channels/" ++ channelId ++ "/messages/" ++ messageId, .put,
        some (.json (.obj [("content", .str content)])))
  | .getMembers guildId => ("/guilds/" ++ guildId ++ "/members", .get, none)
  | .createEmoji guildId name image =>
      ("/guilds/" ++ guildId ++ "/emojis", .post,
        some (.json (.obj [("name", .str name), ("image", .str image)])))
  | .getEmojis guildId => ("/guilds/" ++ guildId ++ "/emojis", .get, none)
  | .getRoles guildId => ("/guilds/" ++ guildId ++ "/roles", .get, none)
  | .deleteMessage channelId messageId =>
      ("/channels/" ++ channelId ++ "/messages/" ++ messageId, .delete, none)
  | .editRole guildId roleId data =>
      ("/guilds/" ++ guildId ++ "/roles/" ++ roleId, .patch, some (.json data))
  | .getRoleUsers guildId roleId =>
      ("/guilds/" ++ guildId ++ "/roles/" ++ roleId ++ "/members", .get, none)
  | .editUsername username =>
      ("/users/@me", .patch, some (.json (.obj [("username", .str username)])))
  | .editAvatar avatar =>
      ("/users/@me", .patch, some (.json (.obj [("avatar", .str avatar)])))
  | .editStatus status =>
      ("/users/@me/settings", .patch, some (.json (.obj [("status", .str status)])))
  | .getBotGateway => ("/gateway/bot", .get, none)
  | .info => ("/users/@me", .get, none)
  | .getGuilds => ("/users/@me/guilds", .get, none)
  | .leaveGuild guildId => ("/users/@me/guilds/" ++ guildId, .delete, none)
  | .getConnections => ("/users/@me/connections", .get, none)

/-- The single HTTP request a forwarded bot operation issues. -/
def mkBotRequest (tok : String) (op : BotOp) : HttpRequest :=
  mkRequest tok (botRequestParts op).1 (botRequestParts op).2.1 (botRequestParts op).2.2

/-- Running a forwarded bot operation: `return this.makeRequest(endpoint,
method, data)` in every such method of `Client`. -/
def runBotOp (t : Transport) (tok : String) (op : BotOp) :
    List HttpRequest × Except ApiError Json :=
  makeRequest t tok (botRequestParts op).1 (botRequestParts op).2.1
    (botRequestParts op).2.2

/-- One entry of a DM channel's `recipients` array. -/
structure Recipient where
  id : String
deriving DecidableEq

/-- A channel object from the `/users/@me/channels` response: its `type`
discriminant, `recipients` array and `id`. -/
structure Channel where
  type : Int
  recipients : List Recipient
  id : String
deriving DecidableEq

/-- The predicate `isDmOpen` evaluates on each channel, totalised: `type === 1
&& recipients[0].id === userId`; reading `recipients[0].id` of an empty array
throws a `TypeError`. -/
def dmMatch (userId : String) (c : Channel) : Except Unit Bool :=
  if c.type = 1 then
    match c.recipients.head? with
    | none => .error ()
    | some r => .ok (r.id == userId)
  else .ok false

/-- `Array.prototype.find` over the channel list with `dmMatch`, propagating
a thrown `TypeError`. -/
def findDm (userId : String) : List Channel → Except Unit (Option Channel)
  | [] => .ok none
  | c :: rest =>
    match dmMatch userId c with
    | .error _ => .error ()
    | .ok true => .ok (some c)
    | .ok false => findDm userId rest

/-- The GET request `isDmOpen` issues: v9 DM-channel list, bot auth only. -/
def dmListReq (tok : String) : HttpRequest :=
  { method := .get
    url := "https://discord.com/api/v9/users/@me/channels"
    body := none
    headers := [("Authorization", "Bot " ++ tok)] }

/-- The POST request `openOrGetDm` issues to create a DM channel. -/
def dmCreateReq (tok userId : String) : HttpRequest :=
  { method := .post
    url := "https://discord.com/api/v9/users/@me/channels"
    body := some (.json (.obj [("recipient_id", .str userId)]))
    headers := [("Authorization", "Bot " ++ tok)] }

/-- Result of `Client.isDmOpen` given the DM-list response: scan for the
first matching channel; found channel gives its id, none gives `null`; any
error (HTTP or the `TypeError` from `recipients[0]`) is logged and rethrown. -/
def isDmOpenRes (dmList : Except ApiError (List Channel)) (userId : String) :
    Except JsError (Option String) :=
  match dmList with
  | .error e => .error (.api e)
  | .ok channels =>
    match findDm userId channels with
    | .error _ => .error .typeError
    | .ok c? => .ok (c?.map Channel.id)

/-- `Client.isDmOpen`: one GET of the bot's DM channel list, then the scan. -/
def isDmOpen (tok : String) (dmList : Except ApiError (List Channel))
    (userId : String) : List HttpRequest × Except JsError (Option String) :=
  ([dmListReq tok], isDmOpenRes dmList userId)

/-- `Client.openOrGetDm`: return the existing channel id when
`isDmOpen`'s result is truthy (non-null and non-empty, by JavaScript string
truthiness); otherwise POST a new DM channel and return `response.data.id`;
errors are logged and rethrown. -/
def openOrGetDm (dmList : Except ApiError (List Channel))
    (createResp : Except ApiError Channel) (tok userId : String) :
    List HttpRequest × Except JsError String :=
  let created : List HttpRequest × Except JsError String :=
    match createResp with
    | .ok ch => ([dmListReq tok, dmCreateReq tok userId], .ok ch.id)
    | .error e => ([dmListReq tok, dmCreateReq tok userId], .error (.api e))
  match isDmOpenRes dmList userId with
  | .error e => ([dmListReq tok], .error e)
  | .ok (some cid) => if cid = "" then created else ([dmListReq tok], .ok cid)
  | .ok none => created

/-- `Client.dm`: resolve the channel with `openOrGetDm`, then call
`sendMessage` on it (not awaited); any error thrown by the resolution step is
caught and logged (`console.log(error)`), and `dm` resolves normally. -/
def dm (dmList : Except ApiError (List Channel))
    (createResp : Except ApiError Channel) (tok userId message : String) :
    List HttpRequest × Except JsError Unit :=
  match openOrGetDm dmList createResp tok userId with
  | (tr, .ok cid) => (tr ++ [mkBotRequest tok (.sendMessage cid message)], .ok ())
  | (tr, .error _) => (tr, .ok ())

/-- Discriminates a channel-message send: a POST whose JSON body's first key
is `content`. -/
def isMessageSend (r : HttpRequest) : Bool :=
  match r.method, r.body with
  | .post, some (.json (Json.obj fields)) =>
    match fields with
    | (k, _) :: _ => k == "content"
    | [] => false
  | _, _ => false

/-- The request `Client.createWebhook` issues (v9, direct axios call). -/
def createWebhookReq (tok channelId name avatar : String) : HttpRequest :=
  { method := .post
    url := "https://discord.com/api/v9/channels/" ++ channelId ++ "/webhooks"
    body := some (.json (.obj [("name", .str name), ("avatar", .str avatar)]))
    headers := [("Authorization", "Bot " ++ tok)] }

/-- `Client.createWebhook`: POST, log, return the webhook; on failure logs
`error.response.data` and returns `null` — the error is swallowed (reading
`.data` of an absent `error.response` itself throws). -/
def createWebhook (t : Transport) (tok channelId name avatar : String) :
    List HttpRequest × Except JsError Json :=
  match t (createWebhookReq tok channelId name avatar) with
  | .ok data => ([createWebhookReq tok channelId name avatar], .ok data)
  | .error e =>
    match e.response with
    | some _ => ([createWebhookReq tok channelId name avatar], .ok Json.null)
    | none => ([createWebhookReq tok channelId name avatar], .error .typeError)

/-- The request `Client.deleteWebhook` issues (v9, direct axios call). -/
def deleteWebhookReq (tok webhookId : String) : HttpRequest :=
  { method := .delete
    url := "https://discord.com/api/v9/webhooks/" ++ webhookId
    body := none
    headers := [("Authorization", "Bot " ++ tok)] }

/-- `Client.deleteWebhook`: DELETE; on failure logs `error.response.data` and
returns normally — the error is swallowed (reading `.data` of an absent
`error.response` itself throws). -/
def deleteWebhook (t : Transport) (tok webhookId : String) :
    List HttpRequest × Except JsError Unit :=
  match t (deleteWebhookReq tok webhookId) with
  | .ok _ => ([deleteWebhookReq tok webhookId], .ok ())
  | .error e =>
    match e.response with
    | some _ => ([deleteWebhookReq tok webhookId], .ok ())
    | none => ([deleteWebhookReq tok webhookId], .error .typeError)

/-- State held by a constructed bot `Client`. -/
structure ClientState where
  token : String
  logging : Bool
deriving DecidableEq

/-- The `logging` flag after the `Client` constructor body: `this.logging =
logs`, then the `=== false` branch prints a notice and sets it back to
`true`. -/
def clientInitLogging (logs : Bool) : Bool :=
  if logs = true then logs
  else if logs = false then true
  else logs

/-- The `Client` constructor: stores the token unvalidated, rebinds
`sendMessage`, and coerces the logging flag; it contains no throw. -/
def clientNew (token : String) (logs : Bool) : Except String ClientState :=
  .ok { token := token, logging := clientInitLogging logs }

/-- State held by a constructed `WebhookUtils` instance. -/
structure WebhookState where
  webhookUrl : String
deriving DecidableEq

/-- The `WebhookUtils` constructor: `if (!hook) throw new Error('No webhook
URL provided')`; the empty string is the falsy missing value. -/
def webhookNew (hook : String) : Except String WebhookState :=
  if hook = "" then .error "No webhook URL provided" else .ok { webhookUrl := hook }

/-- PATCH request with a JSON body and no explicitly set headers (webhook
calls carry no auth header; the URL is the credential). -/
def patchReq (url : String) (body : Json) : HttpRequest :=
  { method := .patch, url := url, body := some (.json body), headers := [] }

/-- POST request with no explicitly set headers. -/
def postReq (url : String) (body : ReqBody) : HttpRequest :=
  { method := .post, url := url, body := some body, headers := [] }

/-- GET request with no explicitly set headers. -/
def getReq (url : String) : HttpRequest :=
  { method := .get, url := url, body := none, headers := [] }

/-- DELETE request with no explicitly set headers. -/
def deleteReq (url : String) : HttpRequest :=
  { method := .delete, url := url, body := none, headers := [] }

namespace WebhookUtils

/-- `WebhookUtils.setRateLimit`: PATCH `{rate_limit_per_user}`; errors are
caught and logged (`console.log(error.message)`). -/
def setRateLimit (t : Transport) (url : String) (n : Int) :
    List HttpRequest × Except WebhookErr Unit :=
  let req := patchReq url (.obj [("rate_limit_per_user", .num n)])
  match t req with
  | .ok _ => ([req], .ok ())
  | .error _ => ([req], .ok ())

/-- `WebhookUtils.setWebhookOwner`: PATCH `{owner_id}` with no try/catch, so
a failure propagates to the caller. -/
def setWebhookOwner (t : Transport) (url userID : String) :
    List HttpRequest × Except WebhookErr Unit :=
  let req := patchReq url (.obj [("owner_id", .str userID)])
  match t req with
  | .ok _ => ([req], .ok ())
  | .error e => ([req], .error (.http e))

/-- `WebhookUtils.sendFile`: inside one try block, read the file (and its
stats), build the multipart form and POST it; the catch swallows every error
— file-system or HTTP — logging it and returning void. -/
def sendFile (fs : FileSystem) (t : Transport) (url message filePath : String) :
    List HttpRequest × Except WebhookErr Unit :=
  match fs filePath with
  | .error _ => ([], .ok ())
  | .ok file =>
    let req := postReq url (.multipart (basename filePath) file.data message)
    match t req with
    | .ok _ => ([req], .ok ())
    | .error _ => ([req], .ok ())

/-- `WebhookUtils.sendMessage`: POST `{content}`; the catch logs the error
and returns void. -/
def sendMessage (t : Transport) (url message : String) :
    List HttpRequest × Except WebhookErr Unit :=
  let req := postReq url (.json (.obj [("content", .str message)]))
  match t req with
  | .ok _ => ([req], .ok ())
  | .error _ => ([req], .ok ())

/-- `WebhookUtils.updateWebhook`: `fs.readFileSync` runs outside the try, so
a file error propagates; the two sequential PATCH calls are inside the try,
whose catch logs and returns void (an avatar-PATCH failure skips the name
PATCH). -/
def updateWebhook (fs : FileSystem) (t : Transport)
    (url imagePath newName : String) :
    List HttpRequest × Except WebhookErr Unit :=
  match fs imagePath with
  | .error e => ([], .error (.fs e))
  | .ok image =>
    let req1 := patchReq url (.obj [("avatar",
      .str ("data:image/jpeg;base64," ++ base64Encode image.data))])
    match t req1 with
    | .error _ => ([req1], .ok ())
    | .ok _ =>
      let req2 := patchReq url (.obj [("name", .str newName)])
      match t req2 with
      | .ok _ => ([req1, req2], .ok ())
      | .error _ => ([req1, req2], .ok ())

/-- `WebhookUtils.deleteMessage`: DELETE `{webhookUrl}/messages/{id}`; the
catch logs and returns void. -/
def deleteMessage (t : Transport) (url messageId : String) :
    List HttpRequest × Except WebhookErr Unit :=
  let req := deleteReq (url ++ "/messages/" ++ messageId)
  match t req with
  | .ok _ => ([req], .ok ())
  | .error _ => ([req], .ok ())

/-- `WebhookUtils.sendSimpleEmbed`: POST `{embeds: [{description}]}`; the
catch logs and returns void. -/
def sendSimpleEmbed (t : Transport) (url content : String) :
    List HttpRequest × Except WebhookErr Unit :=
  let req := postReq url (.json (.obj [("embeds",
    .arr [Json.obj [("description", .str content)]])]))
  match t req with
  | .ok _ => ([req], .ok ())
  | .error _ => ([req], .ok ())

/-- `WebhookUtils.deleteAllMessages`: DELETE on the bare webhook URL; the
catch logs and returns void. -/
def deleteAllMessages (t : Transport) (url : String) :
    List HttpRequest × Except WebhookErr Unit :=
  let req := deleteReq url
  match t req with
  | .ok _ => ([req], .ok ())
  | .error _ => ([req], .ok ())

/-- `WebhookUtils.info`: GET the webhook URL and return `response.data`; the
catch logs the error and then rethrows it. -/
def info (t : Transport) (url : String) :
    List HttpRequest × Except WebhookErr Json :=
  let req := getReq url
  match t req with
  | .ok data => ([req], .ok data)
  | .error e => ([req], .error (.http e))

/-- `WebhookUtils.sendMultipleEmbeds`: POST `{embeds: array}`; the catch logs
and returns void. -/
def sendMultipleEmbeds (t : Transport) (url : String) (embedArray : List Json) :
    List HttpRequest × Except WebhookErr Unit :=
  let req := postReq url (.json (.obj [("embeds", .arr embedArray)]))
  match t req with
  | .ok _ => ([req], .ok ())
  | .error _ => ([req], .ok ())

end WebhookUtils

/-- The channel test actually performed by the source's scan, as a Boolean
predicate on channels whose `recipients` array is non-empty: `type` is 1 and
the FIRST recipient's id equals `userId`. -/
def dmPred (u : String) (c : Channel) : Bool :=
  c.type == 1 &&
    (match c.recipients.head? with
     | some r => r.id == u
     | none => false)

/-- Unfolding lemma: `makeRequest` issues exactly its one built request and
returns the transport's answer for it (data on success, the rethrown error on
failure). -/
theorem makeRequest_eq (t : Transport) (tok endpoint : String) (method : Method)
    (body : Option ReqBody) :
    makeRequest t tok endpoint method body =
      ([mkRequest tok endpoint method body], t (mkRequest tok endpoint method body)) := by
  unfold makeRequest
  cases h : t (mkRequest tok endpoint method body) <;> simp [h]

/-- When every type-1 channel has a recipient, the scan never throws and
agrees with `List.find?` over `dmPred`. -/
theorem findDm_eq_find (u : String) (l : List Channel)
    (h : ∀ c ∈ l, c.type = 1 → c.recipients ≠ []) :
    findDm u l = Except.ok (l.find? (dmPred u)) := by
  induction l with
  | nil => rfl
  | cons c rest ih =>
    have hrest : ∀ x ∈ rest, x.type = 1 → x.recipients ≠ [] :=
      fun x hx => h x (List.mem_cons_of_mem _ hx)
    by_cases ht : c.type = 1
    · obtain ⟨r, rs, hr⟩ : ∃ r rs, c.recipients = r :: rs := by
        cases hcr : c.recipients with
        | nil => exact absurd hcr (h c (List.mem_cons_self c rest) ht)
        | cons a as => exact ⟨a, as, rfl⟩
      by_cases hru : r.id = u
      · have hb : (r.id == u) = true := beq_iff_eq.mpr hru
        simp [findDm, dmMatch, dmPred, ht, hr, hb, List.find?_cons]
      · have hb : (r.id == u) = false := beq_eq_false_iff_ne.mpr hru
        simp [findDm, dmMatch, dmPred, ht, hr, hb, List.find?_cons, ih hrest]
    · simp [findDm, dmMatch, dmPred, ht, List.find?_cons, beq_iff_eq, ih hrest]

/-- The DM resolution step issues either only the list GET, or the list GET
followed by the creation POST. -/
theorem openOrGetDm_fst (d : Except ApiError (List Channel))
    (c : Except ApiError Channel) (tok u : String) :
    (openOrGetDm d c tok u).fst = [dmListReq tok] ∨
    (openOrGetDm d c tok u).fst = [dmListReq tok, dmCreateReq tok u] := by
  rcases hres : isDmOpenRes d u with e | o
  · left; simp [openOrGetDm, hres]
  · rcases o with _ | cid
    · right; rcases c with e | ch <;> simp [openOrGetDm, hres]
    · by_cases hc : cid = ""
      · right; rcases c with e | ch <;> simp [openOrGetDm, hres, hc]
      · left; simp [openOrGetDm, hres, hc]

/-- Neither request issued by the DM resolution step is a message send. -/
theorem openOrGetDm_sendCount (d : Except ApiError (List Channel))
    (c : Except ApiError Channel) (tok u : String) :
    ((openOrGetDm d c tok u).fst).countP isMessageSend = 0 := by
  have hA : isMessageSend (dmListReq tok) = false := rfl
  have hB : isMessageSend (dmCreateReq tok u) = false := rfl
  rcases openOrGetDm_fst d c tok u with h | h <;>
    simp [h, List.countP_cons, List.countP_nil, hA, hB]

/-- C1: `getUser(uid)` on a client with token `tok` makes the dispatcher
issue exactly one request; for token `"T"` and user `"42"` that request is a
GET to `/users/42` under the v10 base URL with header `Authorization: Bot T`;
the transport's success body is returned verbatim, and a transport error is
rethrown to the caller. -/
theorem getUser_dispatch (t : Transport) (tok uid : String)
    (res : Except ApiError Json) :
    (runBotOp t tok (BotOp.getUser uid)).fst = [mkBotRequest tok (BotOp.getUser uid)] ∧
    mkBotRequest "T" (BotOp.getUser "42") =
      { method := .get
        url := "https://discord.com/api/v10/users/42"
        body := none
        headers := [("Authorization", "Bot T"),
                    ("Content-Type", "application/json")] } ∧
    runBotOp (fun _ => res) tok (BotOp.getUser uid) =
      ([mkBotRequest tok (BotOp.getUser uid)], res) := by
  refine ⟨?_, rfl, ?_⟩ <;> simp [runBotOp, makeRequest_eq, mkBotRequest]

/-- C2 (amended): on a fetched list whose type-1 channels all have at least
one recipient, `isDmOpen` returns exactly the id of the first channel whose
type is 1 and whose FIRST recipient's id equals `userId` (`List.find?`), and
null when there is none. -/
theorem isDmOpen_first_recipient (tok u : String) (l : List Channel)
    (h : ∀ c ∈ l, c.type = 1 → c.recipients ≠ []) :
    (isDmOpen tok (Except.ok l) u).snd =
      Except.ok ((l.find? (dmPred u)).map Channel.id) := by
  simp [isDmOpen, isDmOpenRes, findDm_eq_find u l h]

/-- Witness for C2's amended theorem at a concrete one-channel list. -/
theorem isDmOpen_first_recipient_witness :
    (isDmOpen "T" (Except.ok [⟨1, [⟨"42"⟩], "c1"⟩]) "42").snd =
      Except.ok ((([⟨1, [⟨"42"⟩], "c1"⟩] : List Channel).find? (dmPred "42")).map
        Channel.id) :=
  isDmOpen_first_recipient "T" "42" [⟨1, [⟨"42"⟩], "c1"⟩] (by decide)

/-- C2 (counterexample): a type-1 channel carrying `"42"` among its
recipients — but not first — is not matched: `isDmOpen` returns null even
though a channel with the claimed property exists. -/
theorem isDmOpen_among_recipients_cex :
    (isDmOpen "T" (Except.ok [⟨1, [⟨"a"⟩, ⟨"42"⟩], "c1"⟩]) "42").snd =
      Except.ok none ∧
    ∃ c : Channel, c ∈ ([⟨1, [⟨"a"⟩, ⟨"42"⟩], "c1"⟩] : List Channel) ∧
      c.type = 1 ∧ "42" ∈ c.recipients.map Recipient.id := by
  refine ⟨rfl, ⟨1, [⟨"a"⟩, ⟨"42"⟩], "c1"⟩, List.mem_singleton.mpr rfl, rfl, ?_⟩
  decide

/-- C3 (amended): when `isDmOpen` resolves to a non-null, NON-EMPTY channel
id, `openOrGetDm` issues no creation POST (only the list GET) and returns the
existing id; when it resolves to null, the creation POST is issued and the
newly created channel's id is returned. -/
theorem openOrGetDm_reuses_existing (dmList dmList2 : Except ApiError (List Channel))
    (createResp : Except ApiError Channel) (ch : Channel) (tok u cid : String)
    (h1 : (isDmOpen tok dmList u).snd = Except.ok (some cid)) (h2 : cid ≠ "")
    (h3 : (isDmOpen tok dmList2 u).snd = Except.ok none) :
    openOrGetDm dmList createResp tok u = ([dmListReq tok], Except.ok cid) ∧
    openOrGetDm dmList2 (Except.ok ch) tok u =
      ([dmListReq tok, dmCreateReq tok u], Except.ok ch.id) := by
  have h1' : isDmOpenRes dmList u = Except.ok (some cid) := h1
  have h3' : isDmOpenRes dmList2 u = Except.ok none := h3
  constructor
  · simp [openOrGetDm, h1', h2]
  · simp [openOrGetDm, h3']

/-- Witness for C3's amended theorem at concrete channel lists. -/
theorem openOrGetDm_reuses_existing_witness :
    openOrGetDm (Except.ok [⟨1, [⟨"42"⟩], "c1"⟩]) (Except.ok ⟨1, [], "newid"⟩)
      "T" "42" = ([dmListReq "T"], Except.ok "c1") ∧
    openOrGetDm (Except.ok []) (Except.ok ⟨1, [], "newid"⟩) "T" "42" =
      ([dmListReq "T", dmCreateReq "T" "42"],
        Except.ok (Channel.id ⟨1, [], "newid"⟩)) :=
  openOrGetDm_reuses_existing (Except.ok [⟨1, [⟨"42"⟩], "c1"⟩]) (Except.ok [])
    (Except.ok ⟨1, [], "newid"⟩) ⟨1, [], "newid"⟩ "T" "42" "c1" rfl (by decide) rfl

/-- C3 (counterexample): a matched channel whose id is the empty string is
non-null, yet JavaScript truthiness takes the creation branch: the creation
POST is issued anyway. -/
theorem openOrGetDm_truthiness_cex :
    (isDmOpen "T" (Except.ok [⟨1, [⟨"42"⟩], ""⟩]) "42").snd =
      Except.ok (some "") ∧
    (openOrGetDm (Except.ok [⟨1, [⟨"42"⟩], ""⟩]) (Except.ok ⟨1, [], "new"⟩)
      "T" "42").fst = [dmListReq "T", dmCreateReq "T" "42"] :=
  ⟨rfl, rfl⟩

/-- C4 (amended): every forwarded bot operation dispatches through
`makeRequest`, issues exactly its one built request, and propagates a
transport failure to the caller. -/
theorem botOps_route_and_rethrow (t : Transport) (tok : String) (op : BotOp)
    (e : ApiError) :
    runBotOp t tok op =
      makeRequest t tok (botRequestParts op).1 (botRequestParts op).2.1
        (botRequestParts op).2.2 ∧
    (runBotOp t tok op).fst = [mkBotRequest tok op] ∧
    runBotOp (fun _ => Except.error e) tok op =
      ([mkBotRequest tok op], Except.error e) := by
  refine ⟨rfl, ?_, ?_⟩ <;> simp [runBotOp, makeRequest_eq, mkBotRequest]

/-- C4 (counterexample): `deleteWebhook` does not rethrow — on a failing
transport carrying a server payload it returns void — and the request it
issues lacks the dispatcher's `Content-Type` header, since it calls the
transport directly. -/
theorem deleteWebhook_swallows_cex :
    (deleteWebhook
      (fun _ => Except.error ⟨some (Json.str "Missing Permissions"),
        "Request failed with status code 403"⟩) "T" "w1").snd = Except.ok () ∧
    (deleteWebhook
      (fun _ => Except.error ⟨some (Json.str "Missing Permissions"),
        "Request failed with status code 403"⟩) "T" "w1").fst =
      [deleteWebhookReq "T" "w1"] ∧
    (deleteWebhookReq "T" "w1").headers = [("Authorization", "Bot T")] :=
  ⟨rfl, rfl, rfl⟩

/-- C5 (amended): with a failing transport, every webhook operation except
`info` and the private `setWebhookOwner` returns void; `info` and
`setWebhookOwner` surface the error — `info` by catching, logging and
rethrowing, `setWebhookOwner` by having no try/catch at all. -/
theorem webhook_error_policy (e : ApiError)
    (url uid msg fpath mid content nname : String) (n : Int)
    (embeds : List Json) (st : FileStat) :
    (WebhookUtils.setRateLimit (fun _ => Except.error e) url n).snd = Except.ok () ∧
    (WebhookUtils.sendMessage (fun _ => Except.error e) url msg).snd = Except.ok () ∧
    (WebhookUtils.sendFile (fun _ => Except.ok st) (fun _ => Except.error e)
      url msg fpath).snd = Except.ok () ∧
    (WebhookUtils.deleteMessage (fun _ => Except.error e) url mid).snd = Except.ok () ∧
    (WebhookUtils.sendSimpleEmbed (fun _ => Except.error e) url content).snd =
      Except.ok () ∧
    (WebhookUtils.deleteAllMessages (fun _ => Except.error e) url).snd = Except.ok () ∧
    (WebhookUtils.sendMultipleEmbeds (fun _ => Except.error e) url embeds).snd =
      Except.ok () ∧
    (WebhookUtils.updateWebhook (fun _ => Except.ok st) (fun _ => Except.error e)
      url fpath nname).snd = Except.ok () ∧
    (WebhookUtils.info (fun _ => Except.error e) url).snd =
      Except.error (WebhookErr.http e) ∧
    (WebhookUtils.setWebhookOwner (fun _ => Except.error e) url uid).snd =
      Except.error (WebhookErr.http e) :=
  ⟨rfl, rfl, rfl, rfl, rfl, rfl, rfl, rfl, rfl, rfl⟩

/-- C5 (counterexample): the non-`info` operation `setWebhookOwner` does not
catch: its failure propagates to the caller instead of returning void. -/
theorem setWebhookOwner_propagates_cex :
    (WebhookUtils.setWebhookOwner (fun _ => Except.error ⟨none, "Network Error"⟩)
      "https://discord.com/api/webhooks/1/tk" "99").snd =
      Except.error (WebhookErr.http ⟨none, "Network Error"⟩) :=
  rfl

/-- C6 (amended): only the webhook client validates its credential — a
non-empty URL is accepted, the empty URL fails construction — while the bot
client's constructor accepts any token, including the empty one, without
error. -/
theorem ctor_validation (hook tok : String) (logs : Bool) (h : hook ≠ "") :
    webhookNew hook = Except.ok { webhookUrl := hook } ∧
    webhookNew "" = Except.error "No webhook URL provided" ∧
    clientNew tok logs = Except.ok { token := tok, logging := true } := by
  refine ⟨?_, rfl, ?_⟩
  · simp [webhookNew, h]
  · cases logs <;> rfl

/-- Witness for C6's amended theorem at concrete credentials. -/
theorem ctor_validation_witness :
    webhookNew "https://discord.com/api/webhooks/1/tk" =
      Except.ok { webhookUrl := "https://discord.com/api/webhooks/1/tk" } ∧
    webhookNew "" = Except.error "No webhook URL provided" ∧
    clientNew "" false = Except.ok { token := "", logging := true } :=
  ctor_validation "https://discord.com/api/webhooks/1/tk" "" false (by decide)

/-- C6 (counterexample): constructing the bot client with an empty token
succeeds — no error is raised at construction time. -/
theorem clientNew_no_validation_cex :
    clientNew "" false = Except.ok { token := "", logging := true } ∧
    webhookNew "" = Except.error "No webhook URL provided" :=
  ⟨rfl, rfl⟩

/-- C7: when DM resolution succeeds with channel id `cid`, `dm` appends
exactly one message-send request targeted at `cid` and resolves; when
resolution fails, the error is caught (dm still resolves) and no message send
is issued. -/
theorem dm_single_send (dmList : Except ApiError (List Channel))
    (createResp : Except ApiError Channel) (tok u m cid : String) (e : ApiError)
    (h : (openOrGetDm dmList createResp tok u).snd = Except.ok cid) :
    dm dmList createResp tok u m =
      ((openOrGetDm dmList createResp tok u).fst ++
        [mkBotRequest tok (.sendMessage cid m)], Except.ok ()) ∧
    ((dm dmList createResp tok u m).fst).countP isMessageSend = 1 ∧
    dm (Except.error e) createResp tok u m = ([dmListReq tok], Except.ok ()) ∧
    ((dm (Except.error e) createResp tok u m).fst).countP isMessageSend = 0 := by
  have hsend : isMessageSend (mkBotRequest tok (.sendMessage cid m)) = true := rfl
  rcases hO : openOrGetDm dmList createResp tok u with ⟨tr, res⟩
  rw [hO] at h
  simp only at h
  subst h
  have hc : tr.countP isMessageSend = 0 := by
    have h0 := openOrGetDm_sendCount dmList createResp tok u
    rw [hO] at h0
    simpa using h0
  refine ⟨?_, ?_, rfl, rfl⟩
  · simp [dm, hO]
  · simp [dm, hO, List.countP_append, List.countP_cons, List.countP_nil, hsend, hc]

/-- Witness for C7 at a concrete pre-existing DM channel. -/
theorem dm_single_send_witness :
    dm (Except.ok [⟨1, [⟨"42"⟩], "c1"⟩]) (Except.ok ⟨1, [], "n"⟩) "T" "42" "hi" =
      ((openOrGetDm (Except.ok [⟨1, [⟨"42"⟩], "c1"⟩]) (Except.ok ⟨1, [], "n"⟩)
        "T" "42").fst ++ [mkBotRequest "T" (.sendMessage "c1" "hi")],
        Except.ok ()) ∧
    ((dm (Except.ok [⟨1, [⟨"42"⟩], "c1"⟩]) (Except.ok ⟨1, [], "n"⟩)
      "T" "42" "hi").fst).countP isMessageSend = 1 ∧
    dm (Except.error ⟨none, "boom"⟩) (Except.ok ⟨1, [], "n"⟩) "T" "42" "hi" =
      ([dmListReq "T"], Except.ok ()) ∧
    ((dm (Except.error ⟨none, "boom"⟩) (Except.ok ⟨1, [], "n"⟩)
      "T" "42" "hi").fst).countP isMessageSend = 0 :=
  dm_single_send (Except.ok [⟨1, [⟨"42"⟩], "c1"⟩]) (Except.ok ⟨1, [], "n"⟩)
    "T" "42" "hi" "c1" ⟨none, "boom"⟩ rfl

/-- C8 (amended): a file-system error in `sendFile` occurs before any network
call — no request is issued — but it is caught by `sendFile`'s own catch and
logged, so the operation returns normally instead of failing. -/
theorem sendFile_error_swallowed (emsg url msg fpath : String) (t : Transport) :
    WebhookUtils.sendFile (fun _ => Except.error emsg) t url msg fpath =
      ([], Except.ok ()) :=
  rfl

/-- C8 (counterexample): reading a nonexistent path makes `sendFile` issue no
request, yet the operation resolves void — the file-system error is not
surfaced as a failure. -/
theorem sendFile_missing_file_cex :
    WebhookUtils.sendFile (fun _ => Except.error "ENOENT: no such file or directory")
      (fun _ => Except.ok Json.null) "https://discord.com/api/webhooks/1/tk" "hi"
      "/missing.png" = ([], Except.ok ()) ∧
    (WebhookUtils.sendFile (fun _ => Except.error "ENOENT: no such file or directory")
      (fun _ => Except.ok Json.null) "https://discord.com/api/webhooks/1/tk" "hi"
      "/missing.png").snd ≠
      Except.error (WebhookErr.fs "ENOENT: no such file or directory") :=
  ⟨rfl, fun h => Except.noConfusion h⟩

/-- C9: the `Client` constructor coerces a `false` logging flag back to
`true`, so after construction with either value the logging flag is `true`. -/
theorem logging_never_disabled (tok : String) (logs : Bool) :
    clientNew tok logs = Except.ok { token := tok, logging := true } ∧
    clientInitLogging false = true := by
  cases logs <;> exact ⟨rfl, rfl⟩

/-- C10: under the precondition that every type-1 channel in the fetched list
has at least one recipient, the scan's `recipients[0].id` access is safe and
`isDmOpen` cannot hit the error branch; without it, a type-1 channel with an
empty recipients array makes the access throw a `TypeError`. -/
theorem isDmOpen_recipients_access (tok u : String) (l : List Channel)
    (h : ∀ c ∈ l, c.type = 1 → c.recipients ≠ []) :
    (∃ o, (isDmOpen tok (Except.ok l) u).snd = Except.ok o) ∧
    (isDmOpen "T" (Except.ok [⟨1, [], "c0"⟩]) "42").snd =
      Except.error JsError.typeError := by
  constructor
  · exact ⟨(l.find? (dmPred u)).map Channel.id,
      by simp [isDmOpen, isDmOpenRes, findDm_eq_find u l h]⟩
  · rfl

/-- Witness for C10 on the empty channel list. -/
theorem isDmOpen_recipients_access_witness :
    (∃ o, (isDmOpen "T" (Except.ok ([] : List Channel)) "42").snd = Except.ok o) ∧
    (isDmOpen "T" (Except.ok [⟨1, [], "c0"⟩]) "42").snd =
      Except.error JsError.typeError :=
  isDmOpen_recipients_access "T" "42" [] (by decide)
